import Mathlib

/-!
Shallow embedding of the DeepL-for-Slack bridge (src/src/index.ts).

The program consists of a static emoji-trigger to language-code table
(`flagToLangCode`), a translation-client wrapper (`runDeepL`), a
reaction-added event handler, and a modal-submission handler.  External
effects (the axios HTTP call and the Slack Web API calls) are modelled by
passing the network outcomes in as explicit parameters and collecting the
outbound calls the handler issues into a list.
-/

namespace DeepLForSlack

/-- Detects an occurrence of the two-character sequence q p (already
lowercased) in a character list; used to model the regex test
`reactionName.match(/QP/i)` from index.ts line 198. -/
def hasQPSub : List Char → Bool
  | 'q' :: 'p' :: _ => true
  | _ :: rest => hasQPSub rest
  | [] => false

/-- Models the case-insensitive regex test `reactionName.match(/QP/i)`:
true exactly when the string contains the substring QP ignoring case. -/
def matchesIgnore (s : String) : Bool :=
  hasQPSub (s.data.map Char.toLower)

/-- The static trigger-name to DeepL language-code table, entries in the
order of the object literal `flagToLangCode` of index.ts lines 79-186. -/
def flagToLangCodeTable : List (String × String) := [
  ("flag-us", "EN-US"), ("us", "EN-US"),
  ("flag-gb", "EN-GB"), ("gb", "EN-GB"),
  ("flag-au", "EN-GB"), ("flag-ca", "EN-US"),
  ("flag-jp", "JA"), ("jp", "JA"),
  ("flag-cn", "ZH-HANS"), ("cn", "ZH-HANS"),
  ("flag-tw", "ZH-HANT"), ("tw", "ZH-HANT"),
  ("flag-hk", "ZH-HANT"), ("hk", "ZH-HANT"),
  ("flag-kr", "KO"), ("kr", "KO"),
  ("flag-de", "DE"), ("de", "DE"),
  ("flag-at", "DE"), ("flag-ch", "DE"),
  ("flag-fr", "FR"), ("fr", "FR"),
  ("flag-es", "ES"), ("es", "ES"), ("flag-mx", "ES"),
  ("flag-pt", "PT-PT"), ("pt", "PT-PT"),
  ("flag-br", "PT-BR"), ("br", "PT-BR"),
  ("flag-it", "IT"), ("it", "IT"),
  ("flag-nl", "NL"), ("nl", "NL"),
  ("flag-pl", "PL"), ("pl", "PL"),
  ("flag-ru", "RU"), ("ru", "RU"),
  ("flag-tr", "TR"), ("tr", "TR"),
  ("flag-id", "ID"), ("id", "ID"),
  ("flag-ua", "UK"), ("ua", "UK"),
  ("flag-se", "SV"), ("se", "SV"),
  ("flag-dk", "DA"), ("dk", "DA"),
  ("flag-fi", "FI"), ("fi", "FI"),
  ("flag-no", "NB"), ("no", "NB"),
  ("flag-cz", "CS"), ("cz", "CS"),
  ("flag-gr", "EL"), ("gr", "EL"),
  ("flag-hu", "HU"), ("hu", "HU"),
  ("flag-ro", "RO"), ("ro", "RO"),
  ("flag-bg", "BG"), ("bg", "BG"),
  ("flag-sk", "SK"), ("sk", "SK"),
  ("flag-si", "SL"), ("si", "SL"),
  ("flag-ee", "ET"), ("ee", "ET"),
  ("flag-lv", "LV"), ("lv", "LV"),
  ("flag-lt", "LT"), ("lt", "LT"),
  ("flag-sa", "AR"), ("sa", "AR"),
  ("flag-ae", "AR"), ("ae", "AR")]

/-- Property access `flagToLangCode[reactionName]` on the object literal:
exact string-key lookup, undefined (none) when the key is absent. -/
def flagToLangCode (key : String) : Option String :=
  flagToLangCodeTable.lookup key

/-- Resolution policy of the reaction handler with the lookup table as a
parameter: the ignore-pattern check of line 198 runs first, then the table
lookup of line 201; a falsy lookup result means no mapping (lines 204-206). -/
def resolveWith (table : String → Option String) (trigger : String) :
    Option String :=
  if matchesIgnore trigger then none else table trigger

/-- Resolution policy with the static table of index.ts, the function the
spec calls `resolve`. -/
def resolve (trigger : String) : Option String :=
  resolveWith flagToLangCode trigger

/-- One entry of the `translations` array of a DeepL response body. -/
structure Translation where
  detected_source_language : String
  text : String
deriving DecidableEq, Repr

/-- The parsed JSON body of a DeepL response; `translations` is optional
because index.ts line 64 checks its presence. -/
structure DeepLData where
  translations : Option (List Translation)
deriving DecidableEq, Repr

/-- Outcome of the `axios.post` call of index.ts lines 48-60: either the
request fails at the transport level (the promise rejects), or a response
with a status code and a possibly-absent parsed body arrives.  Axios
rejects the promise for any non-2xx status, which the try/catch of
lines 46-71 turns into the null return. -/
inductive AxiosOutcome where
  | networkError
  | response (status : Nat) (data : Option DeepLData)
deriving DecidableEq, Repr

/-- Statuses axios treats as success under its default validateStatus. -/
def is2xx (status : Nat) : Bool :=
  decide (200 ≤ status) && decide (status < 300)

/-- The request body index.ts lines 50-53 sends: a one-element text list
plus the target language code. -/
structure DeepLRequest where
  text : List String
  target_lang : String
deriving DecidableEq, Repr

/-- The request `runDeepL` builds for a given input. -/
def deepLRequest (text targetLang : String) : DeepLRequest :=
  { text := [text], target_lang := targetLang }

/-- Translation-client wrapper `runDeepL` of index.ts lines 39-73, with
the network outcome passed explicitly.  A transport failure or non-2xx
status throws and is caught (null result); a 2xx response yields the first
entry of a non-empty translations list with the fixed version marker of
line 67 appended; a missing body, missing list or empty list falls through
to the null return of line 72. -/
def runDeepL (text targetLang : String) (outcome : AxiosOutcome) :
    Option String :=
  match outcome with
  | .networkError => none
  | .response status data =>
    if is2xx status then
      match data with
      | none => none
      | some d =>
        match d.translations with
        | none => none
        | some [] => none
        | some (t :: _) => some (t.text ++ "\n\n[2026/1/15 VER]")
    else none

/-- The item field of a reaction_added event. -/
structure ReactionItem where
  type : String
  channel : String
  ts : String
deriving DecidableEq, Repr

/-- A reaction_added event as the handler of index.ts line 193 reads it. -/
structure ReactionAddedEvent where
  reaction : String
  item : ReactionItem
deriving DecidableEq, Repr

/-- A Slack message as returned by conversations.replies; the text field
may be absent, and index.ts line 217 also treats the empty string as
absent (JavaScript falsiness). -/
structure SlackMessage where
  text : Option String
deriving DecidableEq, Repr

/-- Result of the `client.conversations.replies` call of lines 209-213;
the messages field may be absent (line 215 checks it). -/
structure RepliesResult where
  messages : Option (List SlackMessage)
deriving DecidableEq, Repr

/-- An outbound API call issued by a handler, in issue order. -/
inductive OutboundCall where
  | conversationsReplies (channel ts : String)
  | deepL (text targetLang : String)
  | chatPostMessage (channel : String) (threadTs : Option String)
      (text : String)
deriving DecidableEq, Repr

/-- The chat.postMessage calls among a list of outbound calls, as
(channel, thread_ts, text) triples. -/
def postedMessages (calls : List OutboundCall) :
    List (String × Option String × String) :=
  calls.filterMap fun c =>
    match c with
    | .chatPostMessage ch th tx => some (ch, th, tx)
    | _ => none

/-- The reaction_added handler of index.ts lines 193-231 with the lookup
table as a parameter, returning the outbound calls it issues.  Mirrors the
source control flow: item-type guard (line 194), ignore-pattern check
(line 198), table lookup (lines 201-206), replies fetch (lines 209-215),
text presence check (line 217), DeepL call (line 219) and threaded post
(lines 220-227). -/
def reactionAddedHandlerWith (table : String → Option String)
    (event : ReactionAddedEvent) (replies : RepliesResult)
    (deepl : AxiosOutcome) : List OutboundCall :=
  if event.item.type = "message" then
    let reactionName := event.reaction
    if matchesIgnore reactionName then []
    else
      match table reactionName with
      | none => []
      | some lang =>
        let fetchCall :=
          OutboundCall.conversationsReplies event.item.channel event.item.ts
        match replies.messages with
        | none => [fetchCall]
        | some [] => [fetchCall]
        | some (message :: _) =>
          match message.text with
          | none => [fetchCall]
          | some mtext =>
            if mtext = "" then [fetchCall]
            else
              let deeplCall := OutboundCall.deepL mtext lang
              match runDeepL mtext lang deepl with
              | none => [fetchCall, deeplCall]
              | some translatedText =>
                [fetchCall, deeplCall,
                 OutboundCall.chatPostMessage event.item.channel
                   (some event.item.ts) translatedText]
  else []

/-- The reaction_added handler with the static table of index.ts. -/
def reactionAddedHandler (event : ReactionAddedEvent)
    (replies : RepliesResult) (deepl : AxiosOutcome) : List OutboundCall :=
  reactionAddedHandlerWith flagToLangCode event replies deepl

/-- The two input values the modal-submission handler reads from
`view.state.values` (index.ts lines 274-275); each may be null. -/
structure ViewSubmission where
  textValue : Option String
  langValue : Option String
deriving DecidableEq, Repr

/-- The direct-message text built at index.ts line 282. -/
def modalMessageText (text lang translatedText : String) : String :=
  "Translating \"" ++ text ++ "\" to " ++ lang ++ "...\n\n> " ++
    translatedText

/-- The deepl-modal view-submission handler of index.ts lines 272-286,
returning the outbound calls it issues: both fields must be truthy
(non-null and non-empty, line 276), then the DeepL call runs and a
successful translation is sent as a direct message to the submitting
user (lines 278-284). -/
def deeplModalHandler (userId : String) (sub : ViewSubmission)
    (deepl : AxiosOutcome) : List OutboundCall :=
  match sub.textValue, sub.langValue with
  | some text, some lang =>
    if text = "" ∨ lang = "" then []
    else
      let deeplCall := OutboundCall.deepL text lang
      match runDeepL text lang deepl with
      | none => [deeplCall]
      | some translatedText =>
        [deeplCall,
         OutboundCall.chatPostMessage userId none
           (modalMessageText text lang translatedText)]
  | _, _ => []

/-- C1 counterexample: the claim says resolve "xx" = some "XX", but the
handler has no uppercase pass-through for two-letter triggers missing from
the table; the lookup miss makes it return without a mapping. -/
theorem C1_counterexample :
    resolve "xx" ≠ some "XX" ∧ resolve "xx" = none := by
  decide

/-- C1 (amended): for every two-letter trigger that is not a key of the
static mapping table, resolution returns no mapping (the reaction is
ignored); there is no uppercased pass-through of the trigger. -/
theorem C1_two_letter_miss_resolves_to_none (t : String)
    (h2 : t.length = 2) (hk : flagToLangCode t = none) :
    resolve t = none := by
  unfold resolve resolveWith
  split
  · rfl
  · exact hk

/-- C1 witness: the trigger "xx" has length two, is not a table key, and
resolves to no mapping. -/
theorem C1_two_letter_miss_resolves_to_none_witness :
    ("xx" : String).length = 2 ∧ flagToLangCode "xx" = none ∧
      resolve "xx" = none :=
  ⟨by decide, by decide,
    C1_two_letter_miss_resolves_to_none "xx" (by decide) (by decide)⟩

/-- C2 counterexample: on a successful response carrying the single
translation "Bonjour", runDeepL does not return "Bonjour"; it returns
"Bonjour" with the fixed version-marker suffix of index.ts line 67. -/
theorem C2_counterexample :
    runDeepL "Hello" "FR"
        (AxiosOutcome.response 200
          (some ⟨some [⟨"EN", "Bonjour"⟩]⟩)) ≠ some "Bonjour" ∧
    runDeepL "Hello" "FR"
        (AxiosOutcome.response 200
          (some ⟨some [⟨"EN", "Bonjour"⟩]⟩)) =
      some "Bonjour\n\n[2026/1/15 VER]" := by
  decide

/-- C2 (amended): for every input text and target language, when the
endpoint responds with a 2xx status and at least one entry in the
translations list, runDeepL returns the first entry's translated text
with the fixed suffix "\n\n[2026/1/15 VER]" appended. -/
theorem C2_success_returns_first_translation_with_marker
    (text targetLang : String) (status : Nat) (d : DeepLData)
    (t : Translation) (rest : List Translation)
    (hs : is2xx status = true) (ht : d.translations = some (t :: rest)) :
    runDeepL text targetLang (AxiosOutcome.response status (some d)) =
      some (t.text ++ "\n\n[2026/1/15 VER]") := by
  simp [runDeepL, hs, ht]

/-- C2 witness: at status 200 with the one-entry list containing
"Bonjour", runDeepL returns the marked translation. -/
theorem C2_success_returns_first_translation_with_marker_witness :
    is2xx 200 = true ∧
    (DeepLData.mk (some [⟨"EN", "Bonjour"⟩])).translations =
      some [⟨"EN", "Bonjour"⟩] ∧
    runDeepL "Hello" "FR"
        (AxiosOutcome.response 200 (some ⟨some [⟨"EN", "Bonjour"⟩]⟩)) =
      some ("Bonjour" ++ "\n\n[2026/1/15 VER]") :=
  ⟨by decide, rfl,
    C2_success_returns_first_translation_with_marker "Hello" "FR" 200
      ⟨some [⟨"EN", "Bonjour"⟩]⟩ ⟨"EN", "Bonjour"⟩ [] (by decide) rfl⟩

/-- C3 counterexample: resolution of two-letter triggers is not
case-insensitive; the uppercase form "JP" does not resolve like "jp". -/
theorem C3_counterexample : resolve "JP" ≠ resolve "jp" := by
  decide

/-- C3 (amended): table lookup is case-sensitive, the keys being
lowercase: resolve "jp" returns "JA" while resolve "JP" returns no
mapping (only the QP ignore-pattern test of line 198 is
case-insensitive). -/
theorem C3_lookup_is_case_sensitive :
    resolve "jp" = some "JA" ∧ resolve "JP" = none ∧
    matchesIgnore "qp-custom" = matchesIgnore "QP-CUSTOM" := by
  decide

/-- C4 counterexample: the trigger "flag-au" resolves to "EN-GB" while
the bare code "au" is not a table key and resolves to nothing, so the
claimed equivalence of "flag-xx" and "xx" fails. -/
theorem C4_counterexample :
    resolve "flag-au" ≠ resolve "au" ∧
    resolve "flag-au" = some "EN-GB" ∧ resolve "au" = none := by
  decide

/-- C4 (amended): resolving "flag-xx" agrees with resolving the bare
code "xx" exactly for the codes whose bare form is also a table key; it
fails for flag-au, flag-ca, flag-at, flag-ch and flag-mx, whose bare
codes are absent from the table. -/
theorem C4_flag_prefixed_agrees_when_both_keys_present :
    (∀ c ∈ ["us", "gb", "jp", "cn", "tw", "hk", "kr", "de", "fr", "es",
            "pt", "br", "it", "nl", "pl", "ru", "tr", "id", "ua", "se",
            "dk", "fi", "no", "cz", "gr", "hu", "ro", "bg", "sk", "si",
            "ee", "lv", "lt", "sa", "ae"],
       resolve ("flag-" ++ c) = resolve c) ∧
    resolve "flag-au" = some "EN-GB" ∧ resolve "au" = none ∧
    resolve "flag-ca" = some "EN-US" ∧ resolve "ca" = none ∧
    resolve "flag-at" = some "DE" ∧ resolve "at" = none ∧
    resolve "flag-ch" = some "DE" ∧ resolve "ch" = none ∧
    resolve "flag-mx" = some "ES" ∧ resolve "mx" = none := by
  decide

/-- C4 witness: the agreement instance at the code "jp". -/
theorem C4_flag_prefixed_agrees_when_both_keys_present_witness :
    resolve ("flag-" ++ "jp") = resolve "jp" :=
  C4_flag_prefixed_agrees_when_both_keys_present.1 "jp" (by decide)

/-- C5: for every trigger matching the ignore pattern, resolution
returns no mapping and the reaction handler issues zero outbound calls,
for every lookup table (the exclusion check of line 198 precedes the
table lookup of line 201). -/
theorem C5_ignored_trigger_no_mapping_no_calls
    (table : String → Option String) (event : ReactionAddedEvent)
    (replies : RepliesResult) (deepl : AxiosOutcome)
    (h : matchesIgnore event.reaction = true) :
    resolveWith table event.reaction = none ∧
    reactionAddedHandlerWith table event replies deepl = [] := by
  constructor
  · simp [resolveWith, h]
  · unfold reactionAddedHandlerWith
    split
    · simp [h]
    · rfl

/-- C5 witness: the trigger "QP-custom" matches the ignore pattern, so
it resolves to nothing under the static table and a reaction-added event
carrying it produces no outbound calls. -/
theorem C5_ignored_trigger_no_mapping_no_calls_witness :
    matchesIgnore "QP-custom" = true ∧
    resolveWith flagToLangCode "QP-custom" = none ∧
    reactionAddedHandlerWith flagToLangCode
        ⟨"QP-custom", ⟨"message", "C111", "111.1"⟩⟩ ⟨none⟩
        AxiosOutcome.networkError = [] :=
  ⟨by decide,
   (C5_ignored_trigger_no_mapping_no_calls flagToLangCode
      ⟨"QP-custom", ⟨"message", "C111", "111.1"⟩⟩ ⟨none⟩
      AxiosOutcome.networkError (by decide)).1,
   (C5_ignored_trigger_no_mapping_no_calls flagToLangCode
      ⟨"QP-custom", ⟨"message", "C111", "111.1"⟩⟩ ⟨none⟩
      AxiosOutcome.networkError (by decide)).2⟩

/-- Failure modes of the translation call the spec enumerates: transport
failure, non-2xx status, or a 2xx body whose translations list is empty. -/
def deepLFailure (outcome : AxiosOutcome) : Prop :=
  outcome = AxiosOutcome.networkError ∨
  (∃ status data, outcome = AxiosOutcome.response status data ∧
      is2xx status = false) ∨
  (∃ status d, outcome = AxiosOutcome.response status (some d) ∧
      d.translations = some [])

/-- Helper: under a failing outcome the translation wrapper returns none
on every input. -/
theorem runDeepL_eq_none_of_failure (outcome : AxiosOutcome)
    (h : deepLFailure outcome) (t l : String) :
    runDeepL t l outcome = none := by
  rcases h with h | ⟨s, data, rfl, hs⟩ | ⟨s, d, rfl, ht⟩
  · subst h; rfl
  · simp [runDeepL, hs]
  · simp [runDeepL, ht]

/-- Helper: when every translation call returns none, the reaction
handler never issues a chat.postMessage call. -/
theorem reaction_handler_posts_nothing_of_none
    (table : String → Option String) (event : ReactionAddedEvent)
    (replies : RepliesResult) (deepl : AxiosOutcome)
    (h : ∀ t l, runDeepL t l deepl = none) :
    postedMessages (reactionAddedHandlerWith table event replies deepl)
      = [] := by
  unfold reactionAddedHandlerWith
  simp only [h]
  repeat' split
  all_goals rfl

/-- Helper: when every translation call returns none, the modal handler
never issues a chat.postMessage call. -/
theorem modal_handler_posts_nothing_of_none (userId : String)
    (sub : ViewSubmission) (deepl : AxiosOutcome)
    (h : ∀ t l, runDeepL t l deepl = none) :
    postedMessages (deeplModalHandler userId sub deepl) = [] := by
  unfold deeplModalHandler
  simp only [h]
  repeat' split
  all_goals rfl

/-- C6: on any transport failure, non-2xx response, or empty
translations list, runDeepL returns failure (none, not an exception),
and under such an outcome neither the reaction handler nor the modal
handler posts any message. -/
theorem C6_failure_returns_none_and_nothing_posted
    (text targetLang : String) (outcome : AxiosOutcome)
    (h : deepLFailure outcome) :
    runDeepL text targetLang outcome = none ∧
    (∀ event replies,
       postedMessages (reactionAddedHandler event replies outcome) = []) ∧
    (∀ userId sub,
       postedMessages (deeplModalHandler userId sub outcome) = []) :=
  ⟨runDeepL_eq_none_of_failure outcome h text targetLang,
   fun event replies =>
     reaction_handler_posts_nothing_of_none flagToLangCode event replies
       outcome (runDeepL_eq_none_of_failure outcome h),
   fun userId sub =>
     modal_handler_posts_nothing_of_none userId sub outcome
       (runDeepL_eq_none_of_failure outcome h)⟩

/-- C6 witness: under an empty translations list at status 200, the
call returns none and concrete reaction and modal interactions post
nothing. -/
theorem C6_failure_returns_none_and_nothing_posted_witness :
    runDeepL "Hello" "FR" (AxiosOutcome.response 200 (some ⟨some []⟩))
      = none ∧
    postedMessages
      (reactionAddedHandler ⟨"jp", ⟨"message", "C111", "111.1"⟩⟩
        ⟨some [⟨some "Hello"⟩]⟩
        (AxiosOutcome.response 200 (some ⟨some []⟩))) = [] ∧
    postedMessages
      (deeplModalHandler "U111" ⟨some "Hi", some "DE"⟩
        (AxiosOutcome.response 200 (some ⟨some []⟩))) = [] :=
  ⟨(C6_failure_returns_none_and_nothing_posted "Hello" "FR"
      (AxiosOutcome.response 200 (some ⟨some []⟩))
      (Or.inr (Or.inr ⟨200, ⟨some []⟩, rfl, rfl⟩))).1,
   (C6_failure_returns_none_and_nothing_posted "Hello" "FR"
      (AxiosOutcome.response 200 (some ⟨some []⟩))
      (Or.inr (Or.inr ⟨200, ⟨some []⟩, rfl, rfl⟩))).2.1
     ⟨"jp", ⟨"message", "C111", "111.1"⟩⟩ ⟨some [⟨some "Hello"⟩]⟩,
   (C6_failure_returns_none_and_nothing_posted "Hello" "FR"
      (AxiosOutcome.response 200 (some ⟨some []⟩))
      (Or.inr (Or.inr ⟨200, ⟨some []⟩, rfl, rfl⟩))).2.2
     "U111" ⟨some "Hi", some "DE"⟩⟩

/-- C7: the documented table entries hold, flag-jp and jp both giving
"JA" and flag-br and br both giving "PT-BR", and in general every key of
the static mapping table resolves to the language code recorded for
it. -/
theorem C7_table_entries_resolve_to_recorded_code :
    resolve "flag-jp" = some "JA" ∧ resolve "jp" = some "JA" ∧
    resolve "flag-br" = some "PT-BR" ∧ resolve "br" = some "PT-BR" ∧
    ∀ p ∈ flagToLangCodeTable, resolve p.1 = some p.2 := by
  decide

/-- C7 witness: the general table clause applied at the entry for
flag-jp. -/
theorem C7_table_entries_resolve_to_recorded_code_witness :
    resolve ("flag-jp", "JA").1 = some ("flag-jp", "JA").2 :=
  C7_table_entries_resolve_to_recorded_code.2.2.2.2 ("flag-jp", "JA")
    (by decide)

/-- C8: for every reaction-added event on a message whose trigger
resolves to a language code, when the fetched message has text and the
translation call returns a result, the handler posts exactly one reply,
threaded under the original message's timestamp and in the same channel
as the original message. -/
theorem C8_successful_reaction_posts_one_threaded_reply
    (event : ReactionAddedEvent) (replies : RepliesResult)
    (deepl : AxiosOutcome) (lang mtext translated : String)
    (m : SlackMessage) (rest : List SlackMessage)
    (htype : event.item.type = "message")
    (hres : resolve event.reaction = some lang)
    (hmsgs : replies.messages = some (m :: rest))
    (htext : m.text = some mtext) (hne : mtext ≠ "")
    (hdeepl : runDeepL mtext lang deepl = some translated) :
    postedMessages (reactionAddedHandler event replies deepl) =
      [(event.item.channel, some event.item.ts, translated)] := by
  have hign : matchesIgnore event.reaction = false := by
    cases hmi : matchesIgnore event.reaction
    · rfl
    · unfold resolve resolveWith at hres
      rw [hmi] at hres
      simp at hres
  have hlook : flagToLangCode event.reaction = some lang := by
    unfold resolve resolveWith at hres
    rw [hign] at hres
    simpa using hres
  unfold reactionAddedHandler reactionAddedHandlerWith
  simp [htype, hign, hlook, hmsgs, htext, hne, hdeepl, postedMessages]

/-- C8 witness: a "jp" reaction on a message "Hello" in channel C111,
with a successful translation, yields one reply threaded under the
original timestamp in the same channel. -/
theorem C8_successful_reaction_posts_one_threaded_reply_witness :
    postedMessages
        (reactionAddedHandler ⟨"jp", ⟨"message", "C111", "111.1"⟩⟩
          ⟨some [⟨some "Hello"⟩]⟩
          (AxiosOutcome.response 200 (some ⟨some [⟨"EN", "Hallo"⟩]⟩))) =
      [("C111", some "111.1", "Hallo" ++ "\n\n[2026/1/15 VER]")] :=
  C8_successful_reaction_posts_one_threaded_reply
    ⟨"jp", ⟨"message", "C111", "111.1"⟩⟩ ⟨some [⟨some "Hello"⟩]⟩
    (AxiosOutcome.response 200 (some ⟨some [⟨"EN", "Hallo"⟩]⟩))
    "JA" "Hello" ("Hallo" ++ "\n\n[2026/1/15 VER]") ⟨some "Hello"⟩ []
    rfl (by decide) rfl rfl (by decide) (by decide)

/-- C9: for every modal submission with both fields non-empty, a
successful translation makes the handler send exactly one direct message
to the submitting user whose text contains the original text, the
requested language code and the translated text, while a failed
translation makes it send none. -/
theorem C9_modal_success_one_dm_failure_none
    (userId : String) (sub : ViewSubmission) (deepl : AxiosOutcome)
    (text lang : String)
    (ht : sub.textValue = some text) (hte : text ≠ "")
    (hl : sub.langValue = some lang) (hle : lang ≠ "") :
    (∀ translated, runDeepL text lang deepl = some translated →
       postedMessages (deeplModalHandler userId sub deepl) =
         [(userId, none, modalMessageText text lang translated)] ∧
       (∃ p q, modalMessageText text lang translated = p ++ text ++ q) ∧
       (∃ p q, modalMessageText text lang translated = p ++ lang ++ q) ∧
       (∃ p q,
          modalMessageText text lang translated = p ++ translated ++ q)) ∧
    (runDeepL text lang deepl = none →
       postedMessages (deeplModalHandler userId sub deepl) = []) := by
  constructor
  · intro translated hok
    refine ⟨?_,
      ⟨"Translating \"", "\" to " ++ lang ++ "...\n\n> " ++ translated,
        by simp [modalMessageText, String.append_assoc]⟩,
      ⟨"Translating \"" ++ text ++ "\" to ", "...\n\n> " ++ translated,
        by simp [modalMessageText, String.append_assoc]⟩,
      ⟨"Translating \"" ++ text ++ "\" to " ++ lang ++ "...\n\n> ", "",
        by simp [modalMessageText, String.append_assoc,
          String.append_empty]⟩⟩
    unfold deeplModalHandler
    rw [ht, hl]
    simp [hte, hle, hok, postedMessages]
  · intro hfail
    unfold deeplModalHandler
    rw [ht, hl]
    simp [hte, hle, hfail, postedMessages]

/-- C9 witness: submitting "Hi" with language "DE" under a successful
response yields exactly one direct message to user U111 built from the
original text, the language and the marked translation, and under a
network error no message. -/
theorem C9_modal_success_one_dm_failure_none_witness :
    (postedMessages
        (deeplModalHandler "U111" ⟨some "Hi", some "DE"⟩
          (AxiosOutcome.response 200 (some ⟨some [⟨"EN", "Hallo"⟩]⟩))) =
      [("U111", none,
        modalMessageText "Hi" "DE" ("Hallo" ++ "\n\n[2026/1/15 VER]"))]) ∧
    postedMessages
        (deeplModalHandler "U111" ⟨some "Hi", some "DE"⟩
          AxiosOutcome.networkError) = [] :=
  ⟨((C9_modal_success_one_dm_failure_none "U111" ⟨some "Hi", some "DE"⟩
      (AxiosOutcome.response 200 (some ⟨some [⟨"EN", "Hallo"⟩]⟩))
      "Hi" "DE" rfl (by decide) rfl (by decide)).1
      ("Hallo" ++ "\n\n[2026/1/15 VER]") (by decide)).1,
   (C9_modal_success_one_dm_failure_none "U111" ⟨some "Hi", some "DE"⟩
      AxiosOutcome.networkError "Hi" "DE" rfl (by decide) rfl
      (by decide)).2 rfl⟩

/-- C10: for every reaction-added event whose reacted-to item is not a
message, the reaction handler issues no outbound calls at all,
regardless of the reaction name. -/
theorem C10_non_message_item_no_calls (event : ReactionAddedEvent)
    (replies : RepliesResult) (deepl : AxiosOutcome)
    (h : event.item.type ≠ "message") :
    reactionAddedHandler event replies deepl = [] := by
  unfold reactionAddedHandler reactionAddedHandlerWith
  rw [if_neg h]

/-- C10 witness: a "jp" reaction on a file item produces no outbound
calls. -/
theorem C10_non_message_item_no_calls_witness :
    reactionAddedHandler ⟨"jp", ⟨"file", "C111", "111.1"⟩⟩ ⟨none⟩
      AxiosOutcome.networkError = [] :=
  C10_non_message_item_no_calls ⟨"jp", ⟨"file", "C111", "111.1"⟩⟩ ⟨none⟩
    AxiosOutcome.networkError (by decide)

end DeepLForSlack
